import Mathlib

/-!
Verification of the mt-sre/client retry/transport library.

The Go sources are shallowly embedded below:
* `policy.go` — `DefaultRetryPolicy` and its helpers (pure string/int functions);
* the backoff generator file — `ExponentialBackoffGenerator`,
  `ConstantBackoffGenerator`, `NoBackoffGenerator` and their options
  (cenkalti/backoff v4 objects are modelled as immutable state records);
* `retry.go` — `NewRetryWrapper` / `RetryWrapper.RoundTrip`, whose
  `backoff.Retry` loop is modelled as a fuel-indexed state-passing recursion;
* `client.go` — `ClientConfig.Wrap` and the verb helpers (`Post`, `Put`, ...).

Machine integers (HTTP status codes, retry counters, `time.Duration`
nanoseconds) are far from any overflow boundary in every scenario considered,
so they are modelled by `Nat`.  Go `error` values are modelled by
`Option String` (the message as observed through `err.Error()`), with `none`
for `nil`; `errors.Is` against the `context` sentinel errors is modelled by
comparison with their fixed messages.  Request and response body streams are
modelled as byte lists together with a consumed flag.
-/

set_option linter.unusedVariables false

namespace MtClient

/-! ## policy.go -/

/-- Go `strings.Contains s pat`: `pat` occurs as a contiguous substring of
`s`, i.e. the character list of `pat` is an infix of that of `s`. -/
def goContains (s pat : String) : Bool :=
  decide (pat.data <:+: s.data)

/-- The transient-fault vocabulary from `msgInRetryPatterns` in policy.go. -/
def retryPatterns : List String :=
  [("connection refused"), ("connection reset"), ("EOF"),
   ("PROTOCOL_ERROR"), ("REFUSED_STREAM")]

/-- `msgInRetryPatterns` from policy.go: the for-loop returns true on the
first pattern contained in `msg`, otherwise false. -/
def msgInRetryPatterns (msg : String) : Bool :=
  retryPatterns.any (fun pat => goContains msg pat)

/-- `isMethodIdempotent` from policy.go: the switch returns false exactly for
POST and PATCH and takes the default branch (true) for every other string. -/
def isMethodIdempotent (method : String) : Bool :=
  if method = ("POST") ∨ method = ("PATCH") then false else true

/-- `DefaultRetryPolicy.IsErrorRetryable` from policy.go.  A `nil` error
(`none`) is retryable; otherwise the message is matched against the
transient-fault patterns. -/
def DefaultRetryPolicy.IsErrorRetryable (err : Option String) : Bool :=
  match err with
  | none => true
  | some msg => if msgInRetryPatterns msg then true else false

/-- `DefaultRetryPolicy.IsStatusRetryableForMethod` from policy.go.  The Go
switch on `code` is a sequence of equality tests. -/
def DefaultRetryPolicy.IsStatusRetryableForMethod (method : String) (code : Nat) : Bool :=
  if code = 408 ∨ code = 429 ∨ code = 503 then true
  else if code = 500 ∨ code = 502 ∨ code = 504 then isMethodIdempotent method
  else false

/-- The idempotent-method list named by the spec (§4.2) and by claim C4:
GET, HEAD, PUT, DELETE, OPTIONS, TRACE, CONNECT.  Kept separate from the
code-side `isMethodIdempotent`, which instead treats every method other than
POST and PATCH as idempotent. -/
def specIdempotentMethods : List String :=
  [("GET"), ("HEAD"), ("PUT"), ("DELETE"), ("OPTIONS"), ("TRACE"), ("CONNECT")]

/-! ## Backoff generators

`cenkalti/backoff` objects are modelled as immutable state records; the Go
mutating methods become record updates.  Durations are `Nat` nanoseconds and
the float-valued factors are `Rat` (they are only stored and copied by the
code under consideration, never subjected to float rounding).  The Go
`ExponentialBackOff` iteration state (`currentInterval` and the `startTime`
captured by `Reset`) is represented by `currentInterval` and
`elapsedSinceStart` (nanoseconds since the recorded start time, 0 right
after a `Reset`). -/

structure ExponentialBackOff where
  InitialInterval : Nat
  RandomizationFactor : Rat
  Multiplier : Rat
  MaxInterval : Nat
  MaxElapsedTime : Nat
  currentInterval : Nat
  elapsedSinceStart : Nat
deriving DecidableEq, Repr

/-- `backoff.NewExponentialBackOff()`: library defaults (500ms initial
interval, factor 0.5, multiplier 1.5, 60s max interval, 15min max elapsed
time), with `Reset` already applied by the constructor. -/
def NewExponentialBackOff : ExponentialBackOff :=
  { InitialInterval := 500000000
    RandomizationFactor := 1/2
    Multiplier := 3/2
    MaxInterval := 60000000000
    MaxElapsedTime := 900000000000
    currentInterval := 500000000
    elapsedSinceStart := 0 }

/-- `ExponentialBackOff.Reset`: restart the delay sequence — the current
interval returns to the configured initial interval and the start time is
re-captured (elapsed time becomes zero). -/
def ExponentialBackOff.Reset (b : ExponentialBackOff) : ExponentialBackOff :=
  { b with currentInterval := b.InitialInterval, elapsedSinceStart := 0 }

/-- The `ExponentialBackoffOption` implementations from the backoff file:
each sets one configuration field of an `ExponentialBackOff`. -/
inductive ExponentialBackoffOption
  | WithInitialInterval (d : Nat)
  | WithMaxElapsedTime (d : Nat)
  | WithRandomizationFactor (f : Rat)
  | WithMultiplier (f : Rat)
deriving DecidableEq, Repr

def ExponentialBackoffOption.ConfigureExponentialBackoff
    (o : ExponentialBackoffOption) (b : ExponentialBackOff) : ExponentialBackOff :=
  match o with
  | WithInitialInterval d => { b with InitialInterval := d }
  | WithMaxElapsedTime d => { b with MaxElapsedTime := d }
  | WithRandomizationFactor f => { b with RandomizationFactor := f }
  | WithMultiplier f => { b with Multiplier := f }

/-- `ExponentialBackoffGenerator(opts...)`: the returned factory closure
constructs a brand-new `ExponentialBackOff` on every invocation, applies the
options in order, and (via the deferred `exp.Reset()`) resets the iteration
state after the options have run, before the object escapes. -/
def ExponentialBackoffGenerator (opts : List ExponentialBackoffOption) :
    Unit → ExponentialBackOff :=
  fun _ =>
    ExponentialBackOff.Reset
      (opts.foldl (fun b o => o.ConfigureExponentialBackoff b) NewExponentialBackOff)

/-- `backoff.ConstantBackOff`: a fixed interval and no mutable iteration
state (`NextBackOff` always returns `Interval`; `Reset` is a no-op). -/
structure ConstantBackOff where
  Interval : Nat
deriving DecidableEq, Repr

/-- `ConstantBackoffGenerator(d)`: the factory closure allocates a fresh
`ConstantBackOff` with interval `d` on every invocation. -/
def ConstantBackoffGenerator (d : Nat) : Unit → ConstantBackOff :=
  fun _ => { Interval := d }

/-- `backoff.ZeroBackOff`: stateless, always a zero delay. -/
inductive ZeroBackOff
  | mk
deriving DecidableEq, Repr

/-- `NoBackoffGenerator()`: the factory closure allocates a fresh
`ZeroBackOff` on every invocation. -/
def NoBackoffGenerator : Unit → ZeroBackOff :=
  fun _ => ZeroBackOff.mk

/-! ## client.go — decorator composition and verb helpers -/

/-- The transports reachable by composing wrappers around a base
`http.RoundTripper`: wrapper implementations in this repository
(`RetryWrapper.Wrap`, `OAUTHWrapper.Wrap`) each return a transport layered
over the inner one they were handed. -/
inductive RoundTripper
  | base (id : Nat)
  | layer (id : Nat) (inner : RoundTripper)
deriving DecidableEq, Repr

structure TransportWrapperImpl where
  id : Nat
deriving DecidableEq, Repr

/-- `TransportWrapper.Wrap` as implemented by the repository's wrappers:
return a transport that delegates to `rt` (outer layer `w` around `rt`). -/
def TransportWrapperImpl.Wrap (w : TransportWrapperImpl) (rt : RoundTripper) :
    RoundTripper :=
  RoundTripper.layer w.id rt

structure ClientConfig where
  Transport : RoundTripper
  Wrappers : List TransportWrapperImpl
deriving DecidableEq, Repr

/-- `ClientConfig.Wrap` from client.go.  The Go loop is

  tp := c.Transport
  for _, w := range c.Wrappers { w.Wrap(tp) }
  client.Transport = tp

— the value returned by `w.Wrap(tp)` is computed and then DISCARDED (`tp` is
never reassigned), so the transport finally installed on the client is the
unchanged base transport. -/
def ClientConfig.Wrap (c : ClientConfig) : RoundTripper :=
  c.Wrappers.foldl
    (fun tp w =>
      have wrapped : RoundTripper := w.Wrap tp
      tp)
    c.Transport

/-- `NewClient` with a `WithTransport` option and a list of `WithWrapper`
options: `ConfigureClient` appends the wrappers in declaration order, and the
client's effective transport is whatever `ClientConfig.Wrap` installs. -/
def NewClientTransport (base : RoundTripper) (ws : List TransportWrapperImpl) :
    RoundTripper :=
  ClientConfig.Wrap { Transport := base, Wrappers := ws }

/-- Modelled from the spec: "Composition is left-to-right: the first-declared
decorator is the outermost and executes first on the way in, last on the way
out" — the first wrapper of the list is the outermost layer around the base
transport. -/
def specComposedTransport (base : RoundTripper) (ws : List TransportWrapperImpl) :
    RoundTripper :=
  ws.foldr (fun w acc => w.Wrap acc) base

/-- An outgoing request as built by `Client.requestWithBody`
(`http.NewRequestWithContext(ctx, method, url, body)`); the context plays no
role in which body is attached, and URL-parse failures are orthogonal to the
body argument, so the request is modelled as the record of what was passed. -/
structure HttpRequest where
  method : String
  url : String
  body : Option (List Nat)
deriving DecidableEq, Repr

def requestWithBody (method url : String) (body : Option (List Nat)) : HttpRequest :=
  { method := method, url := url, body := body }

/-- `Client.Post` from client.go: note the hard-coded `nil` body argument. -/
def Client.Post (url : String) (body : Option (List Nat)) : HttpRequest :=
  requestWithBody ("POST") url none

/-- `Client.Put` from client.go: note the hard-coded `nil` body argument. -/
def Client.Put (url : String) (body : Option (List Nat)) : HttpRequest :=
  requestWithBody ("PUT") url none

/-- `Client.Patch` from client.go: note the hard-coded `nil` body argument. -/
def Client.Patch (url : String) (body : Option (List Nat)) : HttpRequest :=
  requestWithBody ("PATCH") url none

/-- `Client.Connect` from client.go: note the hard-coded `nil` body argument. -/
def Client.Connect (url : String) (body : Option (List Nat)) : HttpRequest :=
  requestWithBody ("CONNECT") url none

/-! ## retry.go — the retry orchestrator

`RetryWrapper.RoundTrip` drives `backoff.Retry(roundtrip, bo)` where `bo` is
`backoff.WithContext(cfg.GenerateBackoff(), req.Context())`, and
`NewRetryWrapper` wraps the generated backoff in
`backoff.WithMaxRetries(inner, maxRetries)` when `maxRetries > 0`.

The embedding fixes the inner generated backoff to one with no stop
condition of its own (`ZeroBackOff` / `ConstantBackOff`, as in the
repository's tests; an elapsed-time stop is a wall-clock property), so the
effective backoff is: stop after `maxRetries` waits when `maxRetries > 0`,
never stop otherwise.  One call of the `roundtrip` closure plus the
following `NextBackOff`/wait step of `backoff.Retry` is one step of the
fuel-indexed recursion `retryRun`; `Sum.inl` carries the still-running loop
state when the fuel runs out (the real loop would keep iterating), and
`Sum.inr` the state at loop exit.

The caller's cancellation signal is a pure schedule: `sched = some k` means
the request context is done once `k` attempts have completed (checked, as in
`backoff.Retry`, between an attempt and the next wait — both the
`WithContext.NextBackOff` check and the mid-wait `select` return `ctx.Err()`
there), and `cause` records whether `ctx.Err()` is `context.DeadlineExceeded`
or `context.Canceled`. -/

/-- The transport seen by the wrapper, per attempt: either a failure with no
response (`res, err = w.rt.RoundTrip(req)` sets `res` to nil) or a response. -/
structure Response where
  statusCode : Nat
  body : List Nat
  bodyDrained : Bool
deriving DecidableEq, Repr

inductive Outcome
  | failure (msg : String)
  | response (r : Response)
deriving DecidableEq, Repr

/-- The request handed to `RetryWrapper.RoundTrip`: its method and its body
stream content; `none` models a nil body or `http.NoBody`, `some bs` a
readable stream with bytes `bs` (possibly empty — Go's `io.ReadAll` then
yields a non-nil empty slice, so the re-wrap branch still runs). -/
structure Request where
  method : String
  body : Option (List Nat)
deriving DecidableEq, Repr

/-- A readable body stream: its bytes and whether it has been consumed. -/
structure BodyStream where
  bytes : List Nat
  consumed : Bool
deriving DecidableEq, Repr

/-- `copyRequestBody` from retry.go: nil/`http.NoBody` gives a nil snapshot;
otherwise the body is read fully (pure bytes — the read and close cannot
fail in this model) and the bytes are the snapshot. -/
def copyRequestBody (req : Request) : Option (List Nat) :=
  req.body

/-- `drainResponseBody` from retry.go: fully read and close a superseded
response body; failures are logged and swallowed, so the only effect is that
the body has been consumed. -/
def drainResponseBody (r : Response) : Response :=
  { r with bodyDrained := true }

/-- The retry policy capability interface (`RetryPolicy` in policy.go). -/
structure RetryPolicyImpl where
  IsErrorRetryable : Option String → Bool
  IsStatusRetryableForMethod : String → Nat → Bool

/-- `NewDefaultRetryPolicy()` — also what `RetryWrapperConfig.Default`
installs when no policy option is given. -/
def NewDefaultRetryPolicy : RetryPolicyImpl :=
  { IsErrorRetryable := DefaultRetryPolicy.IsErrorRetryable
    IsStatusRetryableForMethod := DefaultRetryPolicy.IsStatusRetryableForMethod }

/-- Whether `cause` is a deadline (`context.DeadlineExceeded`) or an explicit
cancellation (`context.Canceled`). -/
inductive Cause
  | deadline
  | canceled
deriving DecidableEq, Repr

/-- How `backoff.Retry` exits in retry.go's `RoundTrip`:
* `success` — the `roundtrip` closure returned nil (non-retryable status);
* `permanent msg` — the closure returned `backoff.Permanent(err)` for a
  non-retryable transport error; `backoff.Retry` returns the inner error;
* `stoppedTemp` — `NextBackOff` returned `backoff.Stop` (retry budget
  exhausted) with the context still alive; `backoff.Retry` returns the
  closure's last error, which is always `errTemporary` at this point;
* `ctxDeadline` / `ctxCanceled` — the context fired (at the `NextBackOff`
  check or during the wait); `backoff.Retry` returns `ctx.Err()`. -/
inductive RetryExit
  | success
  | permanent (msg : String)
  | stoppedTemp
  | ctxDeadline
  | ctxCanceled
deriving DecidableEq, Repr

/-- The per-call mutable state of the `RoundTrip` closure: attempts made so
far (= inner-transport invocations), waits consumed from the capped backoff
(`backOffTries.numTries`), the `res` variable, the current request body
stream, plus two observation logs — the body readable by the transport at
each attempt and the superseded responses drained between attempts. -/
structure LoopAcc where
  attempts : Nat
  numTries : Nat
  res : Option Response
  stream : Option BodyStream
  observed : List (Option (List Nat))
  released : List Response
deriving DecidableEq, Repr

/-- Whether the request context is done once `attemptsDone` attempts have
completed. -/
def ctxDoneAt (sched : Option Nat) (attemptsDone : Nat) : Bool :=
  match sched with
  | none => false
  | some k => decide (k ≤ attemptsDone)

def Cause.toExit : Cause → RetryExit
  | Cause.deadline => RetryExit.ctxDeadline
  | Cause.canceled => RetryExit.ctxCanceled

/-- One `NextBackOff`-and-wait step of `backoff.Retry` on
`WithContext(WithMaxRetries? inner, ctx)`: a done context wins (both the
`WithContext` Stop + `ctx.Err()` path and the mid-wait `select` path return
the context error); otherwise a cap of `some m` stops once `m` waits have
been consumed (`backOffTries`: Stop when `maxTries <= numTries`, else
`numTries++`), and no cap (`maxRetries == 0`, the wrapper never installed
`WithMaxRetries`) always continues.  `Sum.inl` = loop exit, `Sum.inr` = the
new `numTries` to continue with. -/
def backoffNext (sched : Option Nat) (cause : Cause) (cap : Option Nat)
    (attemptsDone numTries : Nat) : Sum RetryExit Nat :=
  if ctxDoneAt sched attemptsDone then
    Sum.inl cause.toExit
  else
    match cap with
    | none => Sum.inr numTries
    | some m => if m ≤ numTries then Sum.inl RetryExit.stoppedTemp else Sum.inr (numTries + 1)

/-- The body re-wrap at the top of the `roundtrip` closure: when a snapshot
exists (`copy != nil`, which includes a captured empty body) the request body
becomes a fresh unconsumed stream over the snapshot bytes; otherwise the
request keeps whatever stream it had. -/
def rewrapBody (copy : Option (List Nat)) (s : Option BodyStream) : Option BodyStream :=
  match copy with
  | some bs => some { bytes := bs, consumed := false }
  | none => s

/-- The per-call state after one execution of the `roundtrip` closure body,
in source order: re-wrap the snapshot if non-nil, drain the previous live
response if any, then invoke the inner transport on attempt number
`acc.attempts` — which reads (consumes) the current request body stream and
overwrites `res` with the new response, or with nil on a transport failure. -/
def attemptAcc (σ : Nat → Outcome) (copy : Option (List Nat)) (acc : LoopAcc) : LoopAcc :=
  { attempts := acc.attempts + 1
    numTries := acc.numTries
    res :=
      match σ acc.attempts with
      | Outcome.failure _ => none
      | Outcome.response r => some r
    stream := (rewrapBody copy acc.stream).map (fun s => { s with consumed := true })
    observed := acc.observed
      ++ [(rewrapBody copy acc.stream).map (fun s => if s.consumed then [] else s.bytes)]
    released :=
      match acc.res with
      | some prev => acc.released ++ [drainResponseBody prev]
      | none => acc.released }

/-- The `backoff.Retry(roundtrip, bo)` loop from retry.go.  Each fuel step
performs one call of the `roundtrip` closure (state change `attemptAcc`),
classifies the outcome with the policy exactly as the closure does, and then
either exits (`nil` op result for a non-retryable status,
`backoff.Permanent` for a non-retryable transport error) or takes a
`backoffNext` step with the closure's `errTemporary`. -/
def retryRun (pol : RetryPolicyImpl) (method : String) (σ : Nat → Outcome)
    (copy : Option (List Nat)) (sched : Option Nat) (cause : Cause)
    (cap : Option Nat) : Nat → LoopAcc → Sum LoopAcc (LoopAcc × RetryExit)
  | 0, acc => Sum.inl acc
  | fuel + 1, acc =>
    let acc1 := attemptAcc σ copy acc
    match σ acc.attempts with
    | Outcome.failure msg =>
      if pol.IsErrorRetryable (some msg) then
        match backoffNext sched cause cap acc1.attempts acc1.numTries with
        | Sum.inl ex => Sum.inr (acc1, ex)
        | Sum.inr nt =>
          retryRun pol method σ copy sched cause cap fuel { acc1 with numTries := nt }
      else
        Sum.inr (acc1, RetryExit.permanent msg)
    | Outcome.response r =>
      if pol.IsStatusRetryableForMethod method r.statusCode then
        match backoffNext sched cause cap acc1.attempts acc1.numTries with
        | Sum.inl ex => Sum.inr (acc1, ex)
        | Sum.inr nt =>
          retryRun pol method σ copy sched cause cap fuel { acc1 with numTries := nt }
      else
        Sum.inr (acc1, RetryExit.success)

/-- The tail of `RoundTrip` after `backoff.Retry` returns:

  if err := backoff.Retry(roundtrip, bo); err != nil \x7b
      if !errors.Is(err, errTemporary) && !errors.Is(err, context.DeadlineExceeded) \x7b
          return nil, fmt.Errorf("permanent error encountered: %w", err)
      \x7d
  \x7d
  return res, nil

`errTemporary` (the Stop case) and `context.DeadlineExceeded` are swallowed
and `res` is returned with a nil error; any other error — a permanent
transport failure or `context.Canceled` — is wrapped and returned with a nil
response.  A permanent transport error whose chain contains
`context.DeadlineExceeded` is identified here by its sentinel message. -/
def finishRetryError (res : Option Response) : RetryExit → Option Response × Option String
  | RetryExit.success => (res, none)
  | RetryExit.stoppedTemp => (res, none)
  | RetryExit.ctxDeadline => (res, none)
  | RetryExit.ctxCanceled => (none, some ("permanent error encountered: context canceled"))
  | RetryExit.permanent msg =>
    if msg = ("context deadline exceeded") then (res, none)
    else (none, some (("permanent error encountered: ") ++ msg))

/-- Everything observable from one top-level `RoundTrip` call. -/
structure RoundTripResult where
  response : Option Response
  error : Option String
  attempts : Nat
  observed : List (Option (List Nat))
  released : List Response
deriving DecidableEq, Repr

/-- `RetryWrapper.RoundTrip` from retry.go for a wrapper built by
`NewRetryWrapper(WithMaxRetries(maxRetries), WithBackoffGenerator(g))` with
`g` a generator with no stop condition of its own: snapshot the body once,
build the capped backoff (`cap = some maxRetries` iff `maxRetries > 0`),
run the `backoff.Retry` loop with `fuel` steps, and post-process the exit.
`none` means the fuel was exhausted with the loop still running. -/
def RetryWrapper.RoundTrip (maxRetries : Nat) (pol : RetryPolicyImpl) (req : Request)
    (σ : Nat → Outcome) (sched : Option Nat) (cause : Cause) (fuel : Nat) :
    Option RoundTripResult :=
  let copy := copyRequestBody req
  let cap : Option Nat := if 0 < maxRetries then some maxRetries else none
  let stream0 : Option BodyStream :=
    copy.map (fun bs => { bytes := bs, consumed := true })
  let acc0 : LoopAcc :=
    { attempts := 0, numTries := 0, res := none, stream := stream0,
      observed := [], released := [] }
  match retryRun pol req.method σ copy sched cause cap fuel acc0 with
  | Sum.inl _ => none
  | Sum.inr (acc, ex) =>
    let p := finishRetryError acc.res ex
    some { response := p.1, error := p.2, attempts := acc.attempts,
           observed := acc.observed, released := acc.released }

/-! ### Policy lemmas -/

theorem isMethodIdempotent_eq (method : String) :
    isMethodIdempotent method = true ↔ method ≠ ("POST") ∧ method ≠ ("PATCH") := by
  unfold isMethodIdempotent
  split <;> rename_i h
  · simp only [Bool.false_eq_true, false_iff]
    intro hc
    rcases h with h | h
    · exact hc.1 h
    · exact hc.2 h
  · simpa [not_or] using h

theorem goContains_iff (s pat : String) :
    goContains s pat = true ↔ pat.data <:+: s.data := by
  simp [goContains]

/-- Claim C4 (counterexample): the claim states that for status 500 the
policy returns true exactly when the method is one of the seven idempotent
methods it lists.  `PROPFIND` (a registered HTTP method, RFC 4918) is not in
that list, yet the policy returns true for it at status 500, because
`isMethodIdempotent` only excludes POST and PATCH. -/
theorem isStatusRetryable_propfind_counterexample :
    ¬ (DefaultRetryPolicy.IsStatusRetryableForMethod ("PROPFIND") 500 = true
        ↔ ("PROPFIND") ∈ specIdempotentMethods) := by
  decide

/-- Claim C4 (amended): statuses 408, 429, 503 are retryable for every
method; statuses 500, 502, 504 are retryable exactly when the method is
neither POST nor PATCH (in particular for all seven idempotent methods the
claim lists, but also for every other method string); every other status is
not retryable. -/
theorem isStatusRetryableForMethod_spec (method : String) (code : Nat) :
    DefaultRetryPolicy.IsStatusRetryableForMethod method code = true ↔
      ((code = 408 ∨ code = 429 ∨ code = 503) ∨
       ((code = 500 ∨ code = 502 ∨ code = 504) ∧
         method ≠ ("POST") ∧ method ≠ ("PATCH"))) := by
  unfold DefaultRetryPolicy.IsStatusRetryableForMethod
  by_cases h1 : code = 408 ∨ code = 429 ∨ code = 503
  · simp [h1]
  · by_cases h2 : code = 500 ∨ code = 502 ∨ code = 504
    · simp [h1, h2, isMethodIdempotent_eq]
    · simp [h1, h2]

/-- Claim C5: `IsErrorRetryable` returns true for an absent (`nil`) failure,
true for a failure whose message contains one of the five transient-fault
patterns ("connection refused", "connection reset", the end-of-stream
indicator "EOF", or the protocol-level signals "PROTOCOL_ERROR" and
"REFUSED_STREAM"), and false for every other failure. -/
theorem isErrorRetryable_spec (err : Option String) :
    DefaultRetryPolicy.IsErrorRetryable err = true ↔
      (err = none ∨
        ∃ msg pat, err = some msg ∧ pat ∈ retryPatterns ∧ pat.data <:+: msg.data) := by
  cases err with
  | none => simp [DefaultRetryPolicy.IsErrorRetryable]
  | some msg =>
    simp only [DefaultRetryPolicy.IsErrorRetryable, msgInRetryPatterns]
    constructor
    · intro h
      split at h
      · next hm =>
          rw [List.any_eq_true] at hm
          obtain ⟨pat, hpat, hc⟩ := hm
          exact Or.inr ⟨msg, pat, rfl, hpat, (goContains_iff msg pat).mp hc⟩
      · exact absurd h (by simp)
    · rintro (h | ⟨m, pat, hm, hpat, hinf⟩)
      · exact absurd h (by simp)
      · obtain rfl : msg = m := Option.some.inj hm
        have : msgInRetryPatterns msg = true := by
          rw [msgInRetryPatterns, List.any_eq_true]
          exact ⟨pat, hpat, (goContains_iff msg pat).mpr hinf⟩
        simp [msgInRetryPatterns] at this
        simp [this]

/-! ### Retry loop lemmas -/

theorem isStatusRetryable_of_always (method : String) (code : Nat)
    (h : code = 408 ∨ code = 429 ∨ code = 503) :
    DefaultRetryPolicy.IsStatusRetryableForMethod method code = true := by
  unfold DefaultRetryPolicy.IsStatusRetryableForMethod
  simp [h]

theorem attemptAcc_attempts (σ : Nat → Outcome) (copy : Option (List Nat)) (acc : LoopAcc) :
    (attemptAcc σ copy acc).attempts = acc.attempts + 1 :=
  rfl

theorem attemptAcc_numTries (σ : Nat → Outcome) (copy : Option (List Nat)) (acc : LoopAcc) :
    (attemptAcc σ copy acc).numTries = acc.numTries :=
  rfl

theorem attemptAcc_observed_some (σ : Nat → Outcome) (bs : List Nat) (acc : LoopAcc) :
    (attemptAcc σ (some bs) acc).observed = acc.observed ++ [some bs] :=
  rfl

theorem backoffNext_none_cap (cause : Cause) (m a t : Nat) :
    backoffNext none cause (some m) a t
      = if m ≤ t then Sum.inl RetryExit.stoppedTemp else Sum.inr (t + 1) :=
  rfl

/-- When the body snapshot is `some bs`, every attempt of the loop re-wraps
the snapshot into a fresh stream, so the bodies observed by the inner
transport from `acc` to loop exit are one `some bs` per attempt made. -/
theorem retryRun_observed_append (pol : RetryPolicyImpl) (method : String)
    (σ : Nat → Outcome) (bs : List Nat) (sched : Option Nat) (cause : Cause)
    (cap : Option Nat) :
    ∀ (fuel : Nat) (acc acc2 : LoopAcc) (ex : RetryExit),
      retryRun pol method σ (some bs) sched cause cap fuel acc = Sum.inr (acc2, ex) →
      acc.attempts ≤ acc2.attempts
      ∧ acc2.observed = acc.observed
          ++ List.replicate (acc2.attempts - acc.attempts) (some bs) := by
  intro fuel
  induction fuel with
  | zero =>
    intro acc acc2 ex h
    simp [retryRun] at h
  | succ n ih =>
    intro acc acc2 ex h
    simp only [retryRun] at h
    rcases hσ : σ acc.attempts with msg | r <;> simp only [hσ] at h <;>
      split at h
    all_goals
      first
      | -- immediate exit branch (permanent failure / non-retryable status):
        -- the loop stops after this single extra attempt
        (injection h with h'
         injection h' with h1 h2
         subst h1
         refine ⟨by simp [attemptAcc_attempts], ?_⟩
         have hone : acc.attempts + 1 - acc.attempts = 1 := by omega
         simp [attemptAcc_attempts, attemptAcc_observed_some, hone])
      | -- retryable branch: case on the backoffNext step
        (split at h
         · -- backoff stopped (or context fired): one extra attempt
           injection h with h'
           injection h' with h1 h2
           subst h1
           refine ⟨by simp [attemptAcc_attempts], ?_⟩
           have hone : acc.attempts + 1 - acc.attempts = 1 := by omega
           simp [attemptAcc_attempts, attemptAcc_observed_some, hone]
         · -- loop continues: apply the induction hypothesis
           obtain ⟨hle, hobs⟩ := ih _ _ _ h
           have hle2 : acc.attempts + 1 ≤ acc2.attempts := hle
           have hobs2 : acc2.observed
               = (acc.observed ++ [some bs])
                 ++ List.replicate (acc2.attempts - (acc.attempts + 1)) (some bs) := hobs
           refine ⟨by omega, ?_⟩
           rw [hobs2]
           have hsplit : acc2.attempts - acc.attempts
               = (acc2.attempts - (acc.attempts + 1)) + 1 := by omega
           rw [hsplit, List.replicate_succ]
           simp)

/-- Claim C6: a request with a non-empty body whose `RoundTrip` call makes
`N + 1` transport attempts (i.e. is retried `N` times) exposes to the inner
transport, on every one of those attempts, a fresh unconsumed stream carrying
exactly the original body bytes: the observed-body log equals `attempts`
copies of the snapshot. -/
theorem roundTrip_body_replay (maxRetries : Nat) (pol : RetryPolicyImpl)
    (method : String) (bs : List Nat) (σ : Nat → Outcome) (sched : Option Nat)
    (cause : Cause) (fuel : Nat) (r : RoundTripResult)
    (hbs : bs ≠ [])
    (h : RetryWrapper.RoundTrip maxRetries pol { method := method, body := some bs }
          σ sched cause fuel = some r) :
    r.observed = List.replicate r.attempts (some bs) := by
  simp only [RetryWrapper.RoundTrip, copyRequestBody] at h
  split at h
  · exact absurd h (by simp)
  · next acc ex heq =>
    obtain ⟨hle, hobs⟩ := retryRun_observed_append pol method σ bs sched cause _ fuel _ _ _ heq
    obtain rfl := Option.some.inj h
    simpa using hobs

/-- With a cap of `m` waits, a context that never fires, and a transport
whose every outcome is a response with an always-retryable status (408, 429
or 503), the loop exits by backoff exhaustion after consuming the remaining
`m - numTries` waits, having made one attempt per wait plus the final
attempt. -/
theorem retryRun_capped_allRetryable (method : String) (σ : Nat → Outcome)
    (copy : Option (List Nat)) (cause : Cause) (m : Nat)
    (hσ : ∀ i, ∃ r, σ i = Outcome.response r
          ∧ (r.statusCode = 408 ∨ r.statusCode = 429 ∨ r.statusCode = 503)) :
    ∀ (fuel : Nat) (acc : LoopAcc),
      acc.numTries ≤ m → m - acc.numTries < fuel →
      ∃ acc2, retryRun NewDefaultRetryPolicy method σ copy none cause (some m) fuel acc
          = Sum.inr (acc2, RetryExit.stoppedTemp)
        ∧ acc2.attempts = acc.attempts + (m - acc.numTries) + 1 := by
  intro fuel
  induction fuel with
  | zero =>
    intro acc h1 h2
    omega
  | succ n ih =>
    intro acc h1 h2
    obtain ⟨r, hσi, hst⟩ := hσ acc.attempts
    simp only [retryRun, hσi]
    rw [show NewDefaultRetryPolicy.IsStatusRetryableForMethod method r.statusCode = true from
      isStatusRetryable_of_always method r.statusCode hst]
    simp only [if_true, attemptAcc_attempts, attemptAcc_numTries, backoffNext_none_cap]
    by_cases hm : m ≤ acc.numTries
    · rw [if_pos hm]
      refine ⟨_, rfl, ?_⟩
      show acc.attempts + 1 = acc.attempts + (m - acc.numTries) + 1
      omega
    · rw [if_neg hm]
      obtain ⟨acc2, hrun, hatt⟩ :=
        ih { attemptAcc σ copy acc with numTries := acc.numTries + 1 }
          (show acc.numTries + 1 ≤ m by omega)
          (show m - (acc.numTries + 1) < n by omega)
      refine ⟨acc2, hrun, ?_⟩
      have hatt2 : acc2.attempts = (acc.attempts + 1) + (m - (acc.numTries + 1)) + 1 := hatt
      omega

/-- Claim C7 (amended): for an idempotent method and a transport whose
attempt outcomes are all responses with statuses drawn from 408/429/503
(every one retryable, so no non-retryable outcome ever cuts the sequence
short), a wrapper configured with `WithMaxRetries(maxRetries)` for
`maxRetries ≥ 1` invokes the inner transport exactly `1 + maxRetries` times
— which is `1 + min(maxRetries, attemptsUntilNonRetryable)` since the first
non-retryable attempt never comes.  (For `maxRetries = 0` see the
counterexample: the cap is not installed at all and retries are unbounded.) -/
theorem roundTrip_attempts_capped (m : Nat) (method : String)
    (body : Option (List Nat)) (σ : Nat → Outcome) (cause : Cause) (fuel : Nat)
    (hm : 1 ≤ m)
    (hidem : isMethodIdempotent method = true)
    (hσ : ∀ i, ∃ r, σ i = Outcome.response r
          ∧ (r.statusCode = 408 ∨ r.statusCode = 429 ∨ r.statusCode = 503))
    (hfuel : m < fuel) :
    ∃ res, RetryWrapper.RoundTrip m NewDefaultRetryPolicy { method := method, body := body }
        σ none cause fuel = some res ∧ res.attempts = 1 + m := by
  obtain ⟨acc2, hrun, hatt⟩ :=
    retryRun_capped_allRetryable method σ (copyRequestBody { method := method, body := body })
      cause m hσ fuel
      { attempts := 0, numTries := 0, res := none,
        stream := (copyRequestBody { method := method, body := body }).map
          (fun bs => { bytes := bs, consumed := true }),
        observed := [], released := [] }
      (by simp) (show m - 0 < fuel by omega)
  refine ⟨{ response := acc2.res, error := none, attempts := acc2.attempts,
            observed := acc2.observed, released := acc2.released }, ?_, ?_⟩
  · have hcap : (if 0 < m then some m else none) = some m := by
      simp [show 0 < m by omega]
    simp only [RetryWrapper.RoundTrip, hcap]
    rw [hrun]
    rfl
  · show acc2.attempts = 1 + m
    have hatt2 : acc2.attempts = 0 + (m - 0) + 1 := hatt
    omega

/-- Claim C7 (counterexample, `maxRetries = 0`): `NewRetryWrapper` only
installs the `WithMaxRetries` cap when `maxRetries > 0`, so with
`WithMaxRetries(0)`, a no-stop backoff generator and a transport that always
answers 429 to a GET, the loop never exits: after 50 loop steps `RoundTrip`
has produced no result and the raw loop state shows 2 transport invocations
after only 2 steps — while the claim's formula `1 + min(0, ·)` demands
exactly one invocation and termination. -/
theorem roundTrip_unbounded_when_maxRetries_zero :
    (RetryWrapper.RoundTrip 0 NewDefaultRetryPolicy { method := ("GET"), body := none }
        (fun _ => Outcome.response { statusCode := 429, body := [], bodyDrained := false })
        none Cause.deadline 50 = none)
    ∧ (retryRun NewDefaultRetryPolicy ("GET")
        (fun _ => Outcome.response { statusCode := 429, body := [], bodyDrained := false })
        none none Cause.deadline none 2
        { attempts := 0, numTries := 0, res := none, stream := none,
          observed := [], released := [] }
      = Sum.inl
          { attempts := 2, numTries := 0,
            res := some { statusCode := 429, body := [], bodyDrained := false },
            stream := none, observed := [none, none],
            released := [{ statusCode := 429, body := [], bodyDrained := true }] }) := by
  refine ⟨by decide, by decide⟩

/-- Claim C8: whenever the very first attempt yields a response whose
status/method pair the default policy classifies as non-retryable, the
wrapper makes exactly one attempt and returns exactly that response — body
bytes untouched, never drained — with no error, for every retry budget,
cancellation schedule and body. -/
theorem roundTrip_nonretryable_single (maxRetries : Nat) (method : String)
    (body : Option (List Nat)) (σ : Nat → Outcome) (sched : Option Nat)
    (cause : Cause) (fuel : Nat) (r : Response)
    (h0 : σ 0 = Outcome.response r)
    (hnr : DefaultRetryPolicy.IsStatusRetryableForMethod method r.statusCode = false) :
    RetryWrapper.RoundTrip maxRetries NewDefaultRetryPolicy
      { method := method, body := body } σ sched cause (fuel + 1)
    = some { response := some r, error := none, attempts := 1,
             observed := [body], released := [] } := by
  simp only [RetryWrapper.RoundTrip, copyRequestBody, retryRun, h0]
  rw [show NewDefaultRetryPolicy.IsStatusRetryableForMethod method r.statusCode = false from hnr]
  cases body <;> simp [attemptAcc, rewrapBody, finishRetryError, h0]

/-- Claim C1 (code-bug evidence): a GET whose every attempt fails with the
retryable transport error "connection refused", under `WithMaxRetries(1)`, a
no-delay backoff and no cancellation, ends with the backoff signalling stop;
`backoff.Retry` then returns `errTemporary`, which `RoundTrip` swallows, and
the call returns a nil response AND a nil error — the last transport failure
is surfaced nowhere, although the claim (and the spec) require it as the
error when no response was ever received. -/
theorem roundTrip_neither_response_nor_error :
    RetryWrapper.RoundTrip 1 NewDefaultRetryPolicy { method := ("GET"), body := none }
      (fun _ => Outcome.failure ("connection refused")) none Cause.deadline 5
    = some { response := none, error := none, attempts := 2,
             observed := [none, none], released := [] } := by
  decide

/-- Claim C3 (code-bug evidence): a GET that receives a 429 response on its
first attempt and whose context is then cancelled explicitly
(`context.Canceled`) before the next attempt: `backoff.Retry` returns
`ctx.Err()`, and since `RoundTrip` only swallows `errTemporary` and
`context.DeadlineExceeded`, it returns a nil response and the wrapped
cancellation error — discarding the last received response, which the claim
(and the spec, and the repository's own `TestRoundTripWithContext` comment)
says must be returned. -/
theorem roundTrip_cancel_discards_last_response :
    RetryWrapper.RoundTrip 0 NewDefaultRetryPolicy { method := ("GET"), body := none }
      (fun _ => Outcome.response { statusCode := 429, body := [], bodyDrained := false })
      (some 1) Cause.canceled 5
    = some { response := none,
             error := some ("permanent error encountered: context canceled"),
             attempts := 1, observed := [none], released := [] } := by
  decide

/-! ### Witnesses -/

theorem roundTrip_body_replay_witness :
    ({ response := some { statusCode := 503, body := [], bodyDrained := false },
       error := none, attempts := 2,
       observed := [some [1, 2], some [1, 2]],
       released := [{ statusCode := 503, body := [], bodyDrained := true }] }
      : RoundTripResult).observed
    = List.replicate
        ({ response := some { statusCode := 503, body := [], bodyDrained := false },
           error := none, attempts := 2,
           observed := [some [1, 2], some [1, 2]],
           released := [{ statusCode := 503, body := [], bodyDrained := true }] }
          : RoundTripResult).attempts (some [1, 2]) :=
  roundTrip_body_replay 1 NewDefaultRetryPolicy ("GET") [1, 2]
    (fun _ => Outcome.response { statusCode := 503, body := [], bodyDrained := false })
    none Cause.deadline 3 _ (by decide) (by decide)

theorem roundTrip_attempts_capped_witness :
    ∃ res, RetryWrapper.RoundTrip 1 NewDefaultRetryPolicy
        { method := ("GET"), body := none }
        (fun _ => Outcome.response { statusCode := 429, body := [], bodyDrained := false })
        none Cause.deadline 2 = some res ∧ res.attempts = 1 + 1 :=
  roundTrip_attempts_capped 1 ("GET") none
    (fun _ => Outcome.response { statusCode := 429, body := [], bodyDrained := false })
    Cause.deadline 2 (by decide) (by decide)
    (fun i => ⟨{ statusCode := 429, body := [], bodyDrained := false }, rfl,
      Or.inr (Or.inl rfl)⟩)
    (by decide)

theorem roundTrip_nonretryable_single_witness :
    RetryWrapper.RoundTrip 3 NewDefaultRetryPolicy { method := ("GET"), body := some [9] }
      (fun _ => Outcome.response { statusCode := 404, body := [7, 7], bodyDrained := false })
      none Cause.deadline (3 + 1)
    = some { response := some { statusCode := 404, body := [7, 7], bodyDrained := false },
             error := none, attempts := 1, observed := [some [9]], released := [] } :=
  roundTrip_nonretryable_single 3 ("GET") (some [9])
    (fun _ => Outcome.response { statusCode := 404, body := [7, 7], bodyDrained := false })
    none Cause.deadline 3
    { statusCode := 404, body := [7, 7], bodyDrained := false } rfl (by decide)

/-! ### Backoff, client and composition theorems -/

/-- Claim C9: every invocation of a backoff generator factory yields a
delay-sequence value whose iteration state is reset (the exponential
sequence's current interval equals its configured initial interval and its
elapsed time is zero, regardless of which options were applied and in which
order), and repeated invocations of the same factory yield identical fresh
values — in this pure embedding each invocation is a new value, so no two
top-level calls can share mutable backoff state. -/
theorem backoffGenerators_fresh (opts : List ExponentialBackoffOption) (d : Nat)
    (u v : Unit) :
    ((ExponentialBackoffGenerator opts u).currentInterval
        = (ExponentialBackoffGenerator opts u).InitialInterval
      ∧ (ExponentialBackoffGenerator opts u).elapsedSinceStart = 0)
    ∧ ExponentialBackoffGenerator opts u = ExponentialBackoffGenerator opts v
    ∧ ConstantBackoffGenerator d u = ConstantBackoffGenerator d v
    ∧ NoBackoffGenerator u = NoBackoffGenerator v := by
  refine ⟨⟨rfl, rfl⟩, rfl, rfl, rfl⟩

/-- Claim C2 (code bug): with a base transport and one configured wrapper the
client's effective transport is the bare base transport — `ClientConfig.Wrap`
discards the result of `w.Wrap(tp)`, so the wrapper is never part of the
composed transport, contrary to the spec-side composition in which the
first-declared wrapper is the outermost layer. -/
theorem clientWrap_discards_wrappers :
    NewClientTransport (RoundTripper.base 0) [{ id := 1 }] = RoundTripper.base 0
    ∧ specComposedTransport (RoundTripper.base 0) [{ id := 1 }]
        = RoundTripper.layer 1 (RoundTripper.base 0)
    ∧ NewClientTransport (RoundTripper.base 0) [{ id := 1 }]
        ≠ specComposedTransport (RoundTripper.base 0) [{ id := 1 }] := by
  refine ⟨rfl, rfl, by decide⟩

/-- Claim C10: `Client.Post`, `Client.Put`, `Client.Patch` and
`Client.Connect` ignore the caller-supplied body: the constructed request
always carries a `nil` body, for every URL and every pair of body
arguments. -/
theorem clientVerbs_ignore_body (url : String) (b1 b2 : Option (List Nat)) :
    ((Client.Post url b1).body = none ∧ Client.Post url b1 = Client.Post url b2)
    ∧ ((Client.Put url b1).body = none ∧ Client.Put url b1 = Client.Put url b2)
    ∧ ((Client.Patch url b1).body = none ∧ Client.Patch url b1 = Client.Patch url b2)
    ∧ ((Client.Connect url b1).body = none
        ∧ Client.Connect url b1 = Client.Connect url b2) := by
  refine ⟨⟨rfl, rfl⟩, ⟨rfl, rfl⟩, ⟨rfl, rfl⟩, ⟨rfl, rfl⟩⟩

end MtClient
